import Mathlib

/-!
# Turbodoc extension: offline bookmark queue and reconciliation pass

Shallow embedding of the offline-queue subsystem of the Turbodoc browser
extension:

* `StorageManager.addToOfflineQueue`, `getOfflineQueue`,
  `removeFromOfflineQueue` (src/shared/lib/browser-compat.js, lines 478-544):
  the persisted queue is a JS array stored under one key; `add` pushes
  `{ ...bookmarkData, id: Date.now() + Math.random(), queuedAt: Date.now() }`,
  `remove` filters by `item.id !== itemId` and always reports success.
* `TurbodocBackground.processOfflineQueue` (src/shared/popup/popup.html,
  lines 1103-1152): if unauthenticated, return; read the queue snapshot;
  if the read failed or the snapshot is empty, return; otherwise iterate the
  snapshot in order, calling `api.createBookmark(item)` on each entry; on a
  successful result remove the entry by id and bump `processedCount`; on an
  unsuccessful result or a thrown error bump `failedCount` and continue; after
  the loop update the badge when `processedCount > 0` and show one aggregate
  notification when `processedCount > 1`.
* `TurbodocAPI.request` (src/unnamed/part_002, lines 201-229) classifies HTTP
  failures (UNAUTHORIZED, FORBIDDEN, NOT_FOUND, SERVER_ERROR, NETWORK_ERROR,
  other); `createBookmark` catches every error and returns
  `{ success: false, error }`, so the reconciler observes only the boolean
  `result.success` plus the possibility of a thrown error.

JS numbers used as ids (`Date.now() + Math.random()`) are modelled as exact
rationals: `Date.now()` as a natural number of milliseconds and
`Math.random()` as a rational, the id being their sum.
-/

namespace Turbodoc

/-- Bookmark payload fields as produced by the popup / context-menu handlers;
opaque to the queue itself. -/
structure Payload where
  title : String
  url : String
deriving DecidableEq, Repr

/-- A persisted offline-queue entry: the spread payload fields plus the
locally generated `id` (`Date.now() + Math.random()`) and `queuedAt`
(`Date.now()`), as pushed by `StorageManager.addToOfflineQueue`. -/
structure QueueEntry where
  title : String
  url : String
  id : ℚ
  queuedAt : ℕ
deriving DecidableEq, Repr

/-- The entry built by `addToOfflineQueue` from a payload and the two external
inputs read at enqueue time: the clock (`Date.now()`, in milliseconds) and the
random draw (`Math.random()`). The id is modelled as the exact rational sum,
whereas the source adds IEEE-754 doubles, which round at realistic clock
magnitudes; the theorems below therefore never rely on injectivity of this
sum — statements about id collisions either hypothesize on the id values
themselves or use only the fact that the id is a deterministic function of
the clock reading and the random draw (which holds for the rounded double
sum just as for the exact one). Concrete scenarios use small values on which
double arithmetic is exact. -/
def mkEntry (p : Payload) (now : ℕ) (rand : ℚ) : QueueEntry :=
  { title := p.title, url := p.url, id := (now : ℚ) + rand, queuedAt := now }

/-- Result of a storage operation: the queue persisted afterwards and the
`success` flag of the returned object. -/
structure OpResult where
  queue : List QueueEntry
  success : Bool
deriving DecidableEq, Repr

/-- `StorageManager.addToOfflineQueue` on the storage-success path: read the
queue, push the new entry, write it back, return `{ success: true }`. -/
def addToOfflineQueue (q : List QueueEntry) (p : Payload) (now : ℕ)
    (rand : ℚ) : OpResult :=
  ⟨q ++ [mkEntry p now rand], true⟩

/-- `StorageManager.getOfflineQueue` on the storage-success path: returns the
persisted queue unchanged. -/
def getOfflineQueue (q : List QueueEntry) : List QueueEntry :=
  q

/-- `StorageManager.removeFromOfflineQueue`: filters out every entry whose id
equals `itemId` (`queue.filter(item => item.id !== itemId)`), writes the
result back, and returns `{ success: true }` whether or not anything
matched. -/
def removeFromOfflineQueue (q : List QueueEntry) (itemId : ℚ) : OpResult :=
  ⟨q.filter (fun item => item.id ≠ itemId), true⟩

/-- A sequence of enqueue operations starting from the queue `q`, each with
its own clock reading and random draw. -/
def enqueueAllFrom (q : List QueueEntry)
    (inputs : List (Payload × ℕ × ℚ)) : List QueueEntry :=
  inputs.foldl (fun acc x => (addToOfflineQueue acc x.1 x.2.1 x.2.2).queue) q

/-- A sequence of enqueue operations starting from the empty queue. -/
def enqueueAll (inputs : List (Payload × ℕ × ℚ)) : List QueueEntry :=
  enqueueAllFrom [] inputs

/-- Failure classification of `TurbodocAPI.request`: 401, 403, 404, 5xx,
fetch-level network errors, and everything else (validation errors, other
HTTP statuses, unknown exceptions). -/
inductive FailureKind where
  | unauthorized
  | forbidden
  | notFound
  | serverError
  | networkError
  | validation
  | unknown
deriving DecidableEq, Repr

/-- Outcome of replaying one entry through `api.createBookmark` inside the
reconciliation loop: a `{ success: true }` result, a `{ success: false }`
result carrying the classified failure kind, or a thrown error (caught by the
loop's try/catch). -/
inductive ReplayOutcome where
  | ok
  | err (kind : FailureKind)
  | thrown
deriving DecidableEq, Repr

/-- Accumulated effect of the `for (const item of queue)` loop in
`processOfflineQueue`: the stored queue after the removals, the two counters,
the entries submitted to `createBookmark` in order, and the number of
`removeFromOfflineQueue` calls issued. -/
structure LoopResult where
  store : List QueueEntry
  processed : ℕ
  failed : ℕ
  submitted : List QueueEntry
  removals : ℕ
deriving DecidableEq, Repr

/-- The reconciliation loop, iterating over the snapshot while the stored
queue evolves through removals. `f k` is the replay outcome of the snapshot
entry at position `k`. On `ok` the entry is removed from the store by id and
`processed` is bumped; otherwise (`{ success: false }` or a thrown error)
`failed` is bumped and the loop continues with the store untouched. -/
def passLoop (f : ℕ → ReplayOutcome) :
    List QueueEntry → List QueueEntry → LoopResult
  | [], store => ⟨store, 0, 0, [], 0⟩
  | item :: rest, store =>
    if f 0 = .ok then
      let r := passLoop (fun n => f (n + 1)) rest
        ((removeFromOfflineQueue store item.id).queue)
      ⟨r.store, r.processed + 1, r.failed, item :: r.submitted, r.removals + 1⟩
    else
      let r := passLoop (fun n => f (n + 1)) rest store
      ⟨r.store, r.processed, r.failed + 1, item :: r.submitted, r.removals⟩

/-- Observable outcome of one `processOfflineQueue` call: the stored queue
afterwards, whether the snapshot read was issued at all, the network
submissions in order, the two counters, the number of removal calls, whether
`updateBadge` ran (`processedCount > 0`), and how many notifications were
shown (one aggregate notification when `processedCount > 1`, else none). -/
structure PassResult where
  queue : List QueueEntry
  queueRead : Bool
  submitted : List QueueEntry
  processedCount : ℕ
  failedCount : ℕ
  removals : ℕ
  badgeUpdated : Bool
  notificationCount : ℕ
deriving DecidableEq, Repr

/-- `TurbodocBackground.processOfflineQueue`. `auth` is
`this.api.isAuthenticated()`, `readOk` is `queueResult.success` of the
snapshot read, `queue` the stored queue (also the snapshot when the read
succeeds), and `f` assigns each snapshot position its replay outcome. -/
def processOfflineQueue (auth : Bool) (readOk : Bool)
    (queue : List QueueEntry) (f : ℕ → ReplayOutcome) : PassResult :=
  if auth = false then
    ⟨queue, false, [], 0, 0, 0, false, 0⟩
  else if readOk = false ∨ queue = [] then
    ⟨queue, true, [], 0, 0, 0, false, 0⟩
  else
    let r := passLoop f queue queue
    ⟨r.store, true, r.submitted, r.processed, r.failed, r.removals,
      decide (0 < r.processed), if 1 < r.processed then 1 else 0⟩

/-! ## Basic facts about the loop and the storage operations -/

/-- Every snapshot entry is submitted to `createBookmark` exactly once, in
snapshot order, regardless of the outcomes: the loop never aborts early and
pulls items from the frozen snapshot, not from the evolving store. -/
lemma passLoop_submitted (f : ℕ → ReplayOutcome) (snap store : List QueueEntry) :
    (passLoop f snap store).submitted = snap := by
  induction snap generalizing f store with
  | nil => simp [passLoop]
  | cons item rest ih =>
    by_cases h : f 0 = .ok <;> simp [passLoop, h, ih]

/-- When every replay succeeds, `processed` counts the whole snapshot. -/
lemma passLoop_processed_of_ok (f : ℕ → ReplayOutcome)
    (snap store : List QueueEntry)
    (hok : ∀ i, i < snap.length → f i = .ok) :
    (passLoop f snap store).processed = snap.length := by
  induction snap generalizing f store with
  | nil => simp [passLoop]
  | cons item rest ih =>
    have h0 : f 0 = .ok := hok 0 (by simp)
    have hrec := ih (fun n => f (n + 1))
      ((removeFromOfflineQueue store item.id).queue)
      (fun i hi => hok (i + 1) (by simpa using hi))
    simp [passLoop, h0, hrec]

/-- When every replay succeeds and every stored entry's id occurs among the
snapshot ids, the store is fully drained. -/
lemma passLoop_store_of_ok (f : ℕ → ReplayOutcome)
    (snap store : List QueueEntry)
    (hok : ∀ i, i < snap.length → f i = .ok)
    (hcov : ∀ e ∈ store, e.id ∈ snap.map QueueEntry.id) :
    (passLoop f snap store).store = [] := by
  induction snap generalizing f store with
  | nil =>
    cases store with
    | nil => simp [passLoop]
    | cons e es => exact absurd (hcov e (by simp)) (by simp)
  | cons item rest ih =>
    have h0 : f 0 = .ok := hok 0 (by simp)
    simp only [passLoop, h0, if_pos rfl]
    refine ih (fun n => f (n + 1))
      ((removeFromOfflineQueue store item.id).queue)
      (fun i hi => hok (i + 1) (by simpa using hi)) ?_
    intro e he
    simp only [removeFromOfflineQueue, List.mem_filter, decide_eq_true_eq] at he
    have := hcov e he.1
    simp only [List.map_cons, List.mem_cons] at this
    exact this.resolve_left he.2

/-- An entry present in the store whose id differs from every snapshot
entry's id survives the whole loop. -/
lemma passLoop_mem_of_ids_ne (f : ℕ → ReplayOutcome)
    (snap store : List QueueEntry) (K : QueueEntry)
    (hK : K ∈ store) (h : ∀ e ∈ snap, e.id ≠ K.id) :
    K ∈ (passLoop f snap store).store := by
  induction snap generalizing f store with
  | nil => simpa [passLoop]
  | cons item rest ih =>
    by_cases h0 : f 0 = .ok
    · simp only [passLoop, h0, if_pos rfl]
      refine ih (fun n => f (n + 1)) _ ?_ (fun e he => h e (by simp [he]))
      simp only [removeFromOfflineQueue, List.mem_filter, decide_eq_true_eq]
      exact ⟨hK, fun hEq => h item (by simp) (hEq ▸ rfl)⟩
    · simp only [passLoop, h0, if_neg h0]
      exact ih (fun n => f (n + 1)) store hK (fun e he => h e (by simp [he]))

/-- A failing entry `K` survives the loop when no other snapshot entry
shares its id: the store only shrinks through removals keyed by the ids of
successful entries. -/
lemma passLoop_keep (f : ℕ → ReplayOutcome)
    (pre post store : List QueueEntry) (K : QueueEntry)
    (hK : f pre.length ≠ .ok) (hstore : K ∈ store)
    (hpre : ∀ e ∈ pre, e.id ≠ K.id) (hpost : ∀ e ∈ post, e.id ≠ K.id) :
    K ∈ (passLoop f (pre ++ K :: post) store).store := by
  induction pre generalizing f store with
  | nil =>
    simp only [List.nil_append, List.length_nil] at hK ⊢
    simp only [passLoop, if_neg hK]
    exact passLoop_mem_of_ids_ne _ _ _ _ hstore hpost
  | cons a pre ih =>
    by_cases h0 : f 0 = .ok
    · simp only [List.cons_append, passLoop, h0, if_pos rfl]
      refine ih (fun n => f (n + 1)) _ hK ?_ (fun e he => hpre e (by simp [he]))
      simp only [removeFromOfflineQueue, List.mem_filter, decide_eq_true_eq]
      exact ⟨hstore, Ne.symm (hpre a (by simp))⟩
    · simp only [List.cons_append, passLoop, if_neg h0]
      exact ih (fun n => f (n + 1)) store hK hstore
        (fun e he => hpre e (by simp [he]))

/-- `enqueueAllFrom` appends the freshly built entries in input order. -/
lemma enqueueAllFrom_eq (q : List QueueEntry)
    (inputs : List (Payload × ℕ × ℚ)) :
    enqueueAllFrom q inputs =
      q ++ inputs.map (fun x => mkEntry x.1 x.2.1 x.2.2) := by
  induction inputs generalizing q with
  | nil => simp [enqueueAllFrom]
  | cons x xs ih =>
    simp only [enqueueAllFrom, List.foldl_cons, List.map_cons]
    rw [show (List.foldl (fun acc y =>
        (addToOfflineQueue acc y.1 y.2.1 y.2.2).queue)
        ((addToOfflineQueue q x.1 x.2.1 x.2.2).queue) xs) =
        enqueueAllFrom ((addToOfflineQueue q x.1 x.2.1 x.2.2).queue) xs
      from rfl]
    rw [ih]
    simp [addToOfflineQueue]

/-- `enqueueAll` builds exactly one entry per input, in input order. -/
lemma enqueueAll_eq (inputs : List (Payload × ℕ × ℚ)) :
    enqueueAll inputs = inputs.map (fun x => mkEntry x.1 x.2.1 x.2.2) := by
  simpa [enqueueAll] using enqueueAllFrom_eq [] inputs

/-- The loop result does not depend on the failure kinds, only on which
replays succeeded: the code inspects nothing but `result.success`. -/
lemma passLoop_congr (f g : ℕ → ReplayOutcome) (snap store : List QueueEntry)
    (h : ∀ i, f i = .ok ↔ g i = .ok) :
    passLoop f snap store = passLoop g snap store := by
  induction snap generalizing f g store with
  | nil => rfl
  | cons item rest ih =>
    by_cases h0 : f 0 = .ok
    · have hg0 : g 0 = .ok := (h 0).mp h0
      simp [passLoop, h0, hg0,
        ih (fun n => f (n + 1)) (fun n => g (n + 1)) _ (fun i => h (i + 1))]
    · have hg0 : ¬ g 0 = .ok := fun hh => h0 ((h 0).mpr hh)
      simp [passLoop, h0, hg0,
        ih (fun n => f (n + 1)) (fun n => g (n + 1)) _ (fun i => h (i + 1))]

/-! ## Concrete entries and outcome assignments used in scenarios -/

/-- Entry built from payload (title "Foo", url "http://x") enqueued at clock
reading 10 with random draw 0, so its id is 10. -/
def entA : QueueEntry := ⟨"Foo", "http://x", 10, 10⟩

/-- Entry built from payload (title "Bar", url "http://y") enqueued at clock
reading 20 with random draw 0, so its id is 20. -/
def entB : QueueEntry := ⟨"Bar", "http://y", 20, 20⟩

/-- Entry built from payload (title "Baz", url "http://z") enqueued at clock
reading 30 with random draw 0, so its id is 30. -/
def entC : QueueEntry := ⟨"Baz", "http://z", 30, 30⟩

/-- Replay outcomes where the first snapshot entry fails with a 5xx
(`SERVER_ERROR`) and every later entry succeeds. -/
def failFirst : ℕ → ReplayOutcome :=
  fun i => if i = 0 then .err .serverError else .ok

/-- Replay outcomes where the second snapshot entry fails with a
`NETWORK_ERROR` and every other entry succeeds. -/
def failSecond : ℕ → ReplayOutcome :=
  fun i => if i = 1 then .err .networkError else .ok

/-! ## The claims -/

/-- C3: while `isAuthenticated()` is false, `processOfflineQueue` returns
immediately as a no-op, not an error: the stored queue is untouched, the
snapshot is never read, no entry is submitted or removed, and neither the
badge nor a notification is produced. -/
theorem c3_unauthenticated_noop (readOk : Bool) (queue : List QueueEntry)
    (f : ℕ → ReplayOutcome) :
    processOfflineQueue false readOk queue f =
      { queue := queue, queueRead := false, submitted := [],
        processedCount := 0, failedCount := 0, removals := 0,
        badgeUpdated := false, notificationCount := 0 } := rfl

/-- C6: any sequence of enqueues yields exactly the enqueued entries in
insertion order; `addToOfflineQueue` only appends (the existing entries are
kept verbatim as a prefix) and `removeFromOfflineQueue` only deletes by id,
leaving the survivors unmutated and in their original relative order (the
result is a sublist of the original queue). -/
theorem c6_insertion_order_invariants :
    (∀ inputs : List (Payload × ℕ × ℚ),
      getOfflineQueue (enqueueAll inputs) =
        inputs.map (fun x => mkEntry x.1 x.2.1 x.2.2)) ∧
    (∀ (q : List QueueEntry) (p : Payload) (now : ℕ) (rand : ℚ),
      (addToOfflineQueue q p now rand).queue = q ++ [mkEntry p now rand]) ∧
    (∀ (q : List QueueEntry) (itemId : ℚ),
      ((removeFromOfflineQueue q itemId).queue).Sublist q) := by
  refine ⟨fun inputs => ?_, fun q p now rand => rfl, fun q itemId => ?_⟩
  · simpa [getOfflineQueue] using enqueueAll_eq inputs
  · exact List.filter_sublist q

/-- C7: removing an id that occurs nowhere in the queue leaves the queue
unchanged and still reports success. -/
theorem c7_remove_absent_noop (q : List QueueEntry) (itemId : ℚ)
    (h : ∀ e ∈ q, e.id ≠ itemId) :
    removeFromOfflineQueue q itemId = ⟨q, true⟩ := by
  simp only [removeFromOfflineQueue, OpResult.mk.injEq, and_true]
  exact List.filter_eq_self.mpr (fun a ha => by simpa using h a ha)

/-- C7 witness: removing the absent id 99 from the queue containing only
`entA` is a successful no-op. -/
theorem c7_witness :
    (∀ e ∈ [entA], e.id ≠ (99 : ℚ)) ∧
    removeFromOfflineQueue [entA] 99 = ⟨[entA], true⟩ :=
  ⟨by decide, c7_remove_absent_noop [entA] 99 (by decide)⟩

/-- C10: `removeFromOfflineQueue` deletes every entry whose id matches (not
only the first match), keeps the survivors in their relative order (the
result is a sublist of the original), keeps every non-matching entry, and
reports success whether or not anything matched. -/
theorem c10_remove_matches (q : List QueueEntry) (itemId : ℚ) :
    (∀ e ∈ (removeFromOfflineQueue q itemId).queue, e.id ≠ itemId) ∧
    ((removeFromOfflineQueue q itemId).queue).Sublist q ∧
    (∀ e ∈ q, e.id ≠ itemId → e ∈ (removeFromOfflineQueue q itemId).queue) ∧
    (removeFromOfflineQueue q itemId).success = true := by
  refine ⟨?_, ?_, ?_, rfl⟩
  · intro e he
    simp only [removeFromOfflineQueue, List.mem_filter,
      decide_eq_true_eq] at he
    exact he.2
  · exact List.filter_sublist q
  · intro e he hne
    simp only [removeFromOfflineQueue, List.mem_filter, decide_eq_true_eq]
    exact ⟨he, hne⟩

/-- C10 witness: removing id 10 from a queue holding two entries with id 10
around one with id 20 deletes both matches and keeps `entB`. -/
theorem c10_witness :
    (∀ e ∈ (removeFromOfflineQueue [entA, entB, entA] 10).queue,
      e.id ≠ (10 : ℚ)) ∧
    ((removeFromOfflineQueue [entA, entB, entA] 10).queue).Sublist
      [entA, entB, entA] ∧
    (∀ e ∈ [entA, entB, entA], e.id ≠ (10 : ℚ) →
      e ∈ (removeFromOfflineQueue [entA, entB, entA] 10).queue) ∧
    (removeFromOfflineQueue [entA, entB, entA] 10).success = true :=
  c10_remove_matches [entA, entB, entA] 10

/-- C8: with an empty queue, or with a failed snapshot read, the pass is a
no-op past the read: nothing is submitted, no removal is attempted, the
badge is not updated and no notification is shown. -/
theorem c8_empty_or_failed_read_noop (readOk : Bool)
    (queue : List QueueEntry) (f : ℕ → ReplayOutcome)
    (h : readOk = false ∨ queue = []) :
    processOfflineQueue true readOk queue f =
      { queue := queue, queueRead := true, submitted := [],
        processedCount := 0, failedCount := 0, removals := 0,
        badgeUpdated := false, notificationCount := 0 } := by
  unfold processOfflineQueue
  rw [if_neg (by simp), if_pos h]

/-- C8 witness: an authenticated pass over the empty queue with a successful
read is a no-op. -/
theorem c8_witness :
    ((true : Bool) = false ∨ ([] : List QueueEntry) = []) ∧
    processOfflineQueue true true [] (fun _ => .ok) =
      { queue := [], queueRead := true, submitted := [],
        processedCount := 0, failedCount := 0, removals := 0,
        badgeUpdated := false, notificationCount := 0 } :=
  ⟨Or.inr rfl,
    c8_empty_or_failed_read_noop true [] (fun _ => .ok) (Or.inr rfl)⟩

/-- C2: when every replay over a non-empty queue succeeds, the pass drains
the queue completely; and when the queue held more than one entry, exactly
one aggregate notification is shown for the whole pass. -/
theorem c2_all_success_drains (queue : List QueueEntry)
    (f : ℕ → ReplayOutcome) (hne : queue ≠ [])
    (hok : ∀ i, i < queue.length → f i = .ok) :
    (processOfflineQueue true true queue f).queue = [] ∧
    (1 < queue.length →
      (processOfflineQueue true true queue f).notificationCount = 1) := by
  have hstore := passLoop_store_of_ok f queue queue hok
    (fun e he => List.mem_map_of_mem QueueEntry.id he)
  have hproc := passLoop_processed_of_ok f queue queue hok
  have hunf : processOfflineQueue true true queue f =
      ⟨(passLoop f queue queue).store, true, (passLoop f queue queue).submitted,
        (passLoop f queue queue).processed, (passLoop f queue queue).failed,
        (passLoop f queue queue).removals,
        decide (0 < (passLoop f queue queue).processed),
        if 1 < (passLoop f queue queue).processed then 1 else 0⟩ := by
    unfold processOfflineQueue
    rw [if_neg (by simp), if_neg (by simp [hne])]
  rw [hunf]
  exact ⟨hstore, fun hlen => by simp [hproc, hlen]⟩

/-- C2 witness: three entries, all replays succeed: the queue ends empty and
one aggregate notification is shown. -/
theorem c2_witness :
    ([entA, entB, entC] ≠ ([] : List QueueEntry)) ∧
    (∀ i, i < ([entA, entB, entC] : List QueueEntry).length →
      (fun _ => ReplayOutcome.ok) i = ReplayOutcome.ok) ∧
    ((processOfflineQueue true true [entA, entB, entC]
        (fun _ => ReplayOutcome.ok)).queue = [] ∧
      (1 < ([entA, entB, entC] : List QueueEntry).length →
        (processOfflineQueue true true [entA, entB, entC]
          (fun _ => ReplayOutcome.ok)).notificationCount = 1)) :=
  ⟨by simp, fun i _ => rfl,
    c2_all_success_drains [entA, entB, entC] (fun _ => ReplayOutcome.ok)
      (by simp) (fun i _ => rfl)⟩

/-- C1 counterexample: the claim quantifies over every queue, but the id
generator (`Date.now() + Math.random()`) can assign two enqueues the same
id (same millisecond, same random draw). In the resulting two-entry queue
the first entry fails its replay while the second succeeds, yet the pass
ends with an empty queue: the failing entry was removed too, because
removal filters by id and both entries share it. -/
theorem c1_counterexample :
    failFirst 0 ≠ ReplayOutcome.ok ∧
    (enqueueAll [(⟨"Foo", "http://x"⟩, 5, 0),
      (⟨"Bar", "http://y"⟩, 5, 0)]).length = 2 ∧
    (processOfflineQueue true true
      (enqueueAll [(⟨"Foo", "http://x"⟩, 5, 0), (⟨"Bar", "http://y"⟩, 5, 0)])
      failFirst).failedCount = 1 ∧
    (processOfflineQueue true true
      (enqueueAll [(⟨"Foo", "http://x"⟩, 5, 0), (⟨"Bar", "http://y"⟩, 5, 0)])
      failFirst).queue = [] := by
  have hq : enqueueAll [(⟨"Foo", "http://x"⟩, 5, 0),
      (⟨"Bar", "http://y"⟩, 5, 0)] =
      [⟨"Foo", "http://x", 5, 5⟩, ⟨"Bar", "http://y", 5, 5⟩] := by
    simp only [enqueueAll_eq, List.map_cons, List.map_nil, mkEntry]
    norm_num
  rw [hq]
  refine ⟨by decide, by decide, by decide, by decide⟩

/-- C1 (amended): for every queue whose entries carry pairwise-distinct ids
and every assignment of per-entry replay outcomes, the pass submits each
entry exactly once in insertion order, and an entry K whose replay fails
(unsuccessful result or thrown error) remains in the queue while the pass
continues through all later entries. -/
theorem c1_amended_order_and_retention (pre post : List QueueEntry)
    (K : QueueEntry) (f : ℕ → ReplayOutcome)
    (hids : ((pre ++ K :: post).map QueueEntry.id).Nodup)
    (hK : f pre.length ≠ .ok) :
    (processOfflineQueue true true (pre ++ K :: post) f).submitted =
      pre ++ K :: post ∧
    K ∈ (processOfflineQueue true true (pre ++ K :: post) f).queue := by
  have hmap : (pre ++ K :: post).map QueueEntry.id =
      pre.map QueueEntry.id ++ K.id :: post.map QueueEntry.id := by simp
  rw [hmap] at hids
  rcases List.nodup_append.mp hids with ⟨-, hnKpost, hdisj⟩
  have hpre : ∀ e ∈ pre, e.id ≠ K.id := by
    intro e he heq
    exact hdisj (List.mem_map_of_mem QueueEntry.id he) (by simp [heq])
  have hpost : ∀ e ∈ post, e.id ≠ K.id := by
    intro e he heq
    have hmem : K.id ∈ post.map QueueEntry.id :=
      heq ▸ List.mem_map_of_mem QueueEntry.id he
    exact (List.nodup_cons.mp hnKpost).1 hmem
  have hne : pre ++ K :: post ≠ [] := by simp
  have hunf : processOfflineQueue true true (pre ++ K :: post) f =
      ⟨(passLoop f (pre ++ K :: post) (pre ++ K :: post)).store, true,
        (passLoop f (pre ++ K :: post) (pre ++ K :: post)).submitted,
        (passLoop f (pre ++ K :: post) (pre ++ K :: post)).processed,
        (passLoop f (pre ++ K :: post) (pre ++ K :: post)).failed,
        (passLoop f (pre ++ K :: post) (pre ++ K :: post)).removals,
        decide (0 < (passLoop f (pre ++ K :: post) (pre ++ K :: post)).processed),
        if 1 < (passLoop f (pre ++ K :: post) (pre ++ K :: post)).processed
          then 1 else 0⟩ := by
    unfold processOfflineQueue
    rw [if_neg (by simp), if_neg (by simp [hne])]
  rw [hunf]
  exact ⟨passLoop_submitted f _ _,
    passLoop_keep f pre post (pre ++ K :: post) K hK (by simp) hpre hpost⟩

/-- C1 witness: queue [entA, entB] with distinct ids, entB failing with a
network error: both entries are submitted in order and entB stays queued. -/
theorem c1_witness :
    (([entA] ++ entB :: ([] : List QueueEntry)).map QueueEntry.id).Nodup ∧
    failSecond ([entA] : List QueueEntry).length ≠ ReplayOutcome.ok ∧
    ((processOfflineQueue true true ([entA] ++ entB :: []) failSecond).submitted =
      [entA] ++ entB :: [] ∧
    entB ∈ (processOfflineQueue true true ([entA] ++ entB :: [])
      failSecond).queue) :=
  ⟨by decide, by decide,
    c1_amended_order_and_retention [entA] [] entB failSecond
      (by decide) (by decide)⟩

/-- C5 counterexample: an entry failing with the non-retryable kind
`UNAUTHORIZED` produces exactly the same pass result as one failing with the
retryable kind `SERVER_ERROR` — in both cases the entry stays queued and
failed-count is 1. The reconciler does not treat kinds outside
{ServerError, NetworkError} as permanently failed or handle them
differently in any way. -/
theorem c5_counterexample :
    FailureKind.unauthorized ≠ FailureKind.serverError ∧
    FailureKind.unauthorized ≠ FailureKind.networkError ∧
    processOfflineQueue true true [entA]
        (fun _ => ReplayOutcome.err FailureKind.unauthorized) =
      processOfflineQueue true true [entA]
        (fun _ => ReplayOutcome.err FailureKind.serverError) ∧
    entA ∈ (processOfflineQueue true true [entA]
      (fun _ => ReplayOutcome.err FailureKind.unauthorized)).queue := by
  refine ⟨by decide, by decide, by decide, by decide⟩

/-- C5 (amended): the pass result depends only on which replays succeeded,
never on the failure kind: any two outcome assignments agreeing on success
positions produce identical pass results, so entries failing with
non-retryable kinds are handled exactly like retryable ones — they remain
queued and are counted in failed-count. -/
theorem c5_amended_kind_blind (queue : List QueueEntry)
    (f g : ℕ → ReplayOutcome) (h : ∀ i, f i = .ok ↔ g i = .ok) :
    processOfflineQueue true true queue f =
      processOfflineQueue true true queue g := by
  unfold processOfflineQueue
  rw [passLoop_congr f g queue queue h]

/-- Replay outcomes where every entry fails with a validation error. -/
def allValidationErr : ℕ → ReplayOutcome := fun _ => .err .validation

/-- Replay outcomes where every entry fails with a network error. -/
def allNetworkErr : ℕ → ReplayOutcome := fun _ => .err .networkError

/-- C5 witness: a validation failure and a network failure on the same
two-entry queue yield identical pass results. -/
theorem c5_witness :
    (∀ i : ℕ, allValidationErr i = ReplayOutcome.ok ↔
      allNetworkErr i = ReplayOutcome.ok) ∧
    processOfflineQueue true true [entA, entB] allValidationErr =
      processOfflineQueue true true [entA, entB] allNetworkErr :=
  ⟨fun i => by simp [allValidationErr, allNetworkErr],
    c5_amended_kind_blind [entA, entB] allValidationErr allNetworkErr
      (fun i => by simp [allValidationErr, allNetworkErr])⟩

/-- C9 counterexample: two enqueues in the same millisecond (clock reading
5) with the same random draw 0 are assigned the same id, so the queue holds
two entries sharing an id: uniqueness does not hold over all clock and
random inputs. -/
theorem c9_counterexample :
    ¬ ((enqueueAll [(⟨"Foo", "http://x"⟩, 5, 0),
        (⟨"Bar", "http://y"⟩, 5, 0)]).map QueueEntry.id).Nodup := by
  simp [enqueueAll_eq, mkEntry]

/-- C9 (amended): the id assigned at enqueue time is a deterministic
function of the clock reading and the random draw alone — it depends neither
on the payload nor on the entries already in the queue, and no uniqueness is
enforced against the existing queue. Consequently uniqueness fails on
colliding inputs: any two enqueues sharing the clock reading and the random
draw yield two queue entries with the same id. This uses only the
determinism of the generator, which holds for the rounded double addition of
the source just as for the exact sum of the model. -/
theorem c9_amended_duplicate_ids (p p' : Payload) (t : ℕ) (r : ℚ) :
    (mkEntry p t r).id = (mkEntry p' t r).id ∧
    ¬ ((enqueueAll [(p, t, r), (p', t, r)]).map QueueEntry.id).Nodup := by
  refine ⟨rfl, ?_⟩
  simp [enqueueAll_eq, mkEntry]

/-- C9 witness: two enqueues at clock reading 7 with random draw 1/2 — one
for payload "Foo", one for payload "Bar" — receive the same id, and the
resulting queue holds duplicate ids. -/
theorem c9_witness :
    (mkEntry ⟨"Foo", "http://x"⟩ 7 (1 / 2)).id =
      (mkEntry ⟨"Bar", "http://y"⟩ 7 (1 / 2)).id ∧
    ¬ ((enqueueAll [(⟨"Foo", "http://x"⟩, 7, 1 / 2),
        (⟨"Bar", "http://y"⟩, 7, 1 / 2)]).map QueueEntry.id).Nodup :=
  c9_amended_duplicate_ids ⟨"Foo", "http://x"⟩ ⟨"Bar", "http://y"⟩ 7 (1 / 2)

/-- C4: the queue built by enqueuing payload A (title "Foo", url "http://x")
at clock 10 then payload B (title "Bar", url "http://y") at clock 20 is
[entA, entB]; a pass where A fails with `SERVER_ERROR` and B succeeds ends
with queue [entA], processed-count 1, failed-count 1, and no aggregate
multi-item notification (the threshold is processed-count > 1). -/
theorem c4_scenario :
    enqueueAll [(⟨"Foo", "http://x"⟩, 10, 0), (⟨"Bar", "http://y"⟩, 20, 0)] =
      [entA, entB] ∧
    (processOfflineQueue true true [entA, entB] failFirst).queue = [entA] ∧
    (processOfflineQueue true true [entA, entB] failFirst).processedCount = 1 ∧
    (processOfflineQueue true true [entA, entB] failFirst).failedCount = 1 ∧
    (processOfflineQueue true true [entA, entB] failFirst).notificationCount
      = 0 := by
  refine ⟨?_, by decide, by decide, by decide, by decide⟩
  simp only [enqueueAll_eq, List.map_cons, List.map_nil, mkEntry, entA, entB]
  norm_num

end Turbodoc
